import Mathlib

/-!
Verification of the `tenma_serial` DC power-supply driver
(`src/tenma_serial/tenma_dc_lib.py`).

The driver is embedded shallowly:

* Python `int` becomes `ℤ`, Python `float` becomes `ℚ` (the protocol only
  ever exchanges short decimal numerals, so exact decimal arithmetic is the
  intended reading of the float round-trips; `%.2f` / `%.3f` formatting is
  modelled as round-half-to-even at 2 resp. 3 decimal places, `int(x)` as
  truncation toward zero, and `float(s)` as parsing of the plain decimal
  forms `[+-]digits[.digits]` after whitespace stripping).
* The serial transport is externalized: each operation takes the textual
  reply (or raw status byte) the device would produce for its query and
  returns the list of command strings written to the port (each with the
  profile's line terminator appended, exactly as `_send_command` does)
  together with an `Except` result mirroring returns versus raised
  exceptions.
* Each `Tenma72XXXX` subclass contributes only class constants, so the
  whole family is one `Profile` structure; methods overridden by the
  three-channel family (`Tenma7213320`) get separate definitions.
-/

set_option linter.unusedVariables false

namespace TenmaSerial

/-! ## Decimal numerals: Python `str`, `float` and `%.Nf` on exact decimals -/

/-- Character classifier for the ASCII digits accepted by `float`. -/
def isDigitChar (c : Char) : Bool := '0' ≤ c && c ≤ '9'

/-- Characters stripped by Python `float` before parsing. -/
def isSpaceChar (c : Char) : Bool := c = ' ' || c = '\t' || c = '\n' || c = '\r'

/-- Numeric value of an ASCII digit character. -/
def charVal (c : Char) : ℕ := c.toNat - 48

/-- ASCII digit character of a value below ten. -/
def digitChar (d : ℕ) : Char := Char.ofNat (48 + d)

/-- Most-significant-first decimal digits of `n`; `fuel` bounds the recursion
and any `fuel > n` yields the digits. -/
def natDigitsAux : ℕ → ℕ → List ℕ
  | 0, _ => []
  | fuel + 1, n => if n < 10 then [n] else natDigitsAux fuel (n / 10) ++ [n % 10]

/-- Decimal digits of `n`, most significant first (`natDigits 0 = [0]`). -/
def natDigits (n : ℕ) : List ℕ := natDigitsAux (n + 1) n

/-- Value of a most-significant-first digit list. -/
def digitsVal (ds : List ℕ) : ℕ := ds.foldl (fun a d => 10 * a + d) 0

/-- Python `str` on a non-negative integer. -/
def natToStr (n : ℕ) : String := String.mk ((natDigits n).map digitChar)

/-- Python `str` on an integer. -/
def intToStr (i : ℤ) : String :=
  if i < 0 then "-" ++ natToStr i.natAbs else natToStr i.natAbs

/-- Python string slicing `s[:n]` (by characters). -/
def strTake (s : String) (n : ℕ) : String := String.mk (s.data.take n)

/-- Python substring containment `needle in hay`. -/
def strContains (needle hay : String) : Bool :=
  hay.data.tails.any (fun t => needle.data.isPrefixOf t)

/-- Leading and trailing whitespace removal, as Python `float` performs. -/
def stripChars (l : List Char) : List Char :=
  ((l.dropWhile isSpaceChar).reverse.dropWhile isSpaceChar).reverse

/-- Parse an unsigned decimal numeral (`digits`, `digits.digits`, `digits.`
or `.digits`), the decimal fragment of Python `float`. -/
def parseUnsignedChars (l : List Char) : Option ℚ :=
  if (l.dropWhile isDigitChar).isEmpty then
    if (l.takeWhile isDigitChar).isEmpty then none
    else some ((digitsVal ((l.takeWhile isDigitChar).map charVal) : ℚ))
  else if (l.dropWhile isDigitChar).head? = some '.' then
    if ((l.dropWhile isDigitChar).tail.dropWhile isDigitChar).isEmpty
        && (!(l.takeWhile isDigitChar).isEmpty
          || !((l.dropWhile isDigitChar).tail.takeWhile isDigitChar).isEmpty) then
      some ((digitsVal ((l.takeWhile isDigitChar).map charVal) : ℚ)
        + (digitsVal (((l.dropWhile isDigitChar).tail.takeWhile isDigitChar).map charVal) : ℚ)
          / (10 : ℚ) ^ ((l.dropWhile isDigitChar).tail.takeWhile isDigitChar).length)
    else none
  else none

/-- Parse an optionally signed decimal numeral. -/
def parseFloatChars (l : List Char) : Option ℚ :=
  match stripChars l with
  | [] => none
  | c :: rest =>
    if c = '-' then (parseUnsignedChars rest).map (fun q => -q)
    else if c = '+' then parseUnsignedChars rest
    else parseUnsignedChars (c :: rest)

/-- Python `float(s)` on the plain decimal forms. -/
def parseFloat (s : String) : Option ℚ := parseFloatChars s.data

/-- Python `int(x)` on a float: truncation toward zero. -/
def pyInt (q : ℚ) : ℤ := if q < 0 then -⌊-q⌋ else ⌊q⌋

/-- Round half to even to the nearest integer, the rounding of `%.Nf`. -/
def rhe (q : ℚ) : ℤ :=
  let f := ⌊q⌋
  let r := q - (f : ℚ)
  if r < 1 / 2 then f
  else if 1 / 2 < r then f + 1
  else if 2 ∣ f then f else f + 1

/-- Fractional part of a fixed-point numeral, zero-padded to `d` digits. -/
def padFrac (d : ℕ) (m : ℕ) : List Char :=
  List.replicate (d - (natDigits m).length) '0' ++ (natDigits m).map digitChar

/-- Render the integer `c` as the fixed-point numeral `c / 10 ^ d` with
exactly `d` decimal places, as `%.df` renders the already rounded value. -/
def decimalStr (c : ℤ) (d : ℕ) : String :=
  String.mk ((if c < 0 then ['-'] else [])
    ++ ((natDigits (c.natAbs / 10 ^ d)).map digitChar
      ++ '.' :: padFrac d (c.natAbs % 10 ^ d)))

/-- Python `f"{mv/1000:.2f}"`: millivolts rendered as volts, 2 decimals. -/
def fmtVolts (mv : ℤ) : String := decimalStr (rhe ((mv : ℚ) / 10)) 2

/-- Python `f"{ma/1000:.3f}"`: milliamps rendered as amps, 3 decimals. -/
def fmtAmps (ma : ℤ) : String := decimalStr (rhe ((ma : ℚ))) 3

/-! ### Correctness of the numeral functions -/

theorem digitsVal_append_singleton (l : List ℕ) (d : ℕ) :
    digitsVal (l ++ [d]) = 10 * digitsVal l + d := by
  simp [digitsVal, List.foldl_append]

theorem natDigitsAux_spec (fuel n : ℕ) (h : n < fuel) :
    digitsVal (natDigitsAux fuel n) = n ∧ natDigitsAux fuel n ≠ [] ∧
      ∀ x ∈ natDigitsAux fuel n, x < 10 := by
  induction fuel generalizing n with
  | zero => omega
  | succ fuel ih =>
    by_cases hn : n < 10
    · refine ⟨?_, ?_, ?_⟩ <;> simp [natDigitsAux, hn, digitsVal]
    · have hd : n / 10 < fuel := by omega
      obtain ⟨h1, h2, h3⟩ := ih (n / 10) hd
      refine ⟨?_, ?_, ?_⟩
      · simp only [natDigitsAux, if_neg hn, digitsVal_append_singleton, h1]
        omega
      · simp [natDigitsAux, if_neg hn]
      · intro x hx
        simp only [natDigitsAux, if_neg hn, List.mem_append, List.mem_singleton] at hx
        rcases hx with hx | hx
        · exact h3 x hx
        · omega

theorem digitsVal_natDigits (n : ℕ) : digitsVal (natDigits n) = n :=
  (natDigitsAux_spec (n + 1) n (Nat.lt_succ_self n)).1

theorem natDigits_ne_nil (n : ℕ) : natDigits n ≠ [] :=
  (natDigitsAux_spec (n + 1) n (Nat.lt_succ_self n)).2.1

theorem natDigits_lt_ten (n : ℕ) : ∀ x ∈ natDigits n, x < 10 :=
  (natDigitsAux_spec (n + 1) n (Nat.lt_succ_self n)).2.2

theorem natDigitsAux_length_le (fuel n k : ℕ) (h : n < fuel) (hk : 1 ≤ k)
    (hn : n < 10 ^ k) : (natDigitsAux fuel n).length ≤ k := by
  induction fuel generalizing n k with
  | zero => omega
  | succ fuel ih =>
    by_cases h10 : n < 10
    · simpa [natDigitsAux, h10] using hk
    · have hd : n / 10 < fuel := by omega
      have hk2 : 2 ≤ k := by
        by_contra hc
        have hk1 : k = 1 := by omega
        subst hk1
        simp at hn
        omega
      have hdk : n / 10 < 10 ^ (k - 1) := by
        have : 10 ^ k = 10 ^ (k - 1) * 10 := by
          rw [← pow_succ]
          congr 1
          omega
        omega
      have := ih (n / 10) (k - 1) hd (by omega) hdk
      simp only [natDigitsAux, if_neg h10, List.length_append, List.length_singleton]
      omega

theorem natDigits_length_le (n k : ℕ) (hk : 1 ≤ k) (hn : n < 10 ^ k) :
    (natDigits n).length ≤ k :=
  natDigitsAux_length_le (n + 1) n k (Nat.lt_succ_self n) hk hn

theorem digitsVal_replicate_zero (z : ℕ) (l : List ℕ) :
    digitsVal (List.replicate z 0 ++ l) = digitsVal l := by
  induction z with
  | zero => rfl
  | succ z ih => simpa [digitsVal, List.replicate_succ] using ih

theorem isDigitChar_digitChar (d : ℕ) (h : d < 10) :
    isDigitChar (digitChar d) = true := by
  interval_cases d <;> decide

theorem charVal_digitChar (d : ℕ) (h : d < 10) : charVal (digitChar d) = d := by
  interval_cases d <;> decide

theorem not_space_digitChar (d : ℕ) (h : d < 10) :
    isSpaceChar (digitChar d) = false := by
  interval_cases d <;> decide

theorem digitChar_ne_dash (d : ℕ) (h : d < 10) : digitChar d ≠ '-' := by
  interval_cases d <;> decide

theorem digitChar_ne_plus (d : ℕ) (h : d < 10) : digitChar d ≠ '+' := by
  interval_cases d <;> decide

theorem takeWhile_append_stop (p : Char → Bool) (l r : List Char) (c : Char)
    (hl : ∀ x ∈ l, p x = true) (hc : p c = false) :
    (l ++ c :: r).takeWhile p = l := by
  rw [List.takeWhile_append_of_pos hl, List.takeWhile_cons_of_neg (by simp [hc]),
    List.append_nil]

theorem dropWhile_append_stop (p : Char → Bool) (l r : List Char) (c : Char)
    (hl : ∀ x ∈ l, p x = true) (hc : p c = false) :
    (l ++ c :: r).dropWhile p = c :: r := by
  rw [List.dropWhile_append_of_pos hl, List.dropWhile_cons_of_neg (by simp [hc])]

theorem takeWhile_of_all (p : Char → Bool) (l : List Char)
    (hl : ∀ x ∈ l, p x = true) : l.takeWhile p = l := by
  induction l with
  | nil => rfl
  | cons a l ih =>
    rw [List.takeWhile_cons_of_pos (hl a (List.mem_cons_self a l))]
    rw [ih (fun x hx => hl x (List.mem_cons_of_mem a hx))]

theorem dropWhile_of_all (p : Char → Bool) (l : List Char)
    (hl : ∀ x ∈ l, p x = true) : l.dropWhile p = [] := by
  induction l with
  | nil => rfl
  | cons a l ih =>
    rw [List.dropWhile_cons_of_pos (hl a (List.mem_cons_self a l))]
    exact ih (fun x hx => hl x (List.mem_cons_of_mem a hx))

theorem dropWhile_of_all_false (p : Char → Bool) (l : List Char)
    (hl : ∀ c ∈ l, p c = false) : l.dropWhile p = l := by
  cases l with
  | nil => rfl
  | cons a l =>
    exact List.dropWhile_cons_of_neg (by simp [hl a (List.mem_cons_self a l)])

theorem stripChars_eq_self (l : List Char) (h : ∀ c ∈ l, isSpaceChar c = false) :
    stripChars l = l := by
  unfold stripChars
  rw [dropWhile_of_all_false _ _ h,
    dropWhile_of_all_false _ _ (fun c hc => h c (List.mem_reverse.mp hc)),
    List.reverse_reverse]

theorem natDigits_map_isDigit (n : ℕ) :
    ∀ c ∈ (natDigits n).map digitChar, isDigitChar c = true := by
  intro c hc
  obtain ⟨d, hd, rfl⟩ := List.mem_map.mp hc
  exact isDigitChar_digitChar d (natDigits_lt_ten n d hd)

theorem padFrac_isDigit (d m : ℕ) : ∀ c ∈ padFrac d m, isDigitChar c = true := by
  intro c hc
  rcases List.mem_append.mp hc with hc | hc
  · rw [List.eq_of_mem_replicate hc]
    decide
  · exact natDigits_map_isDigit m c hc

theorem decimal_chars_not_space (n : ℕ) :
    ∀ c ∈ (natDigits n).map digitChar, isSpaceChar c = false := by
  intro c hc
  obtain ⟨d, hd, rfl⟩ := List.mem_map.mp hc
  exact not_space_digitChar d (natDigits_lt_ten n d hd)

theorem map_charVal_digitChar (l : List ℕ) (h : ∀ x ∈ l, x < 10) :
    (l.map digitChar).map charVal = l := by
  induction l with
  | nil => rfl
  | cons a l ih =>
    simp only [List.map_cons, List.cons.injEq]
    exact ⟨charVal_digitChar a (h a (List.mem_cons_self a l)),
      ih (fun x hx => h x (List.mem_cons_of_mem a hx))⟩

theorem map_charVal_padFrac (d m : ℕ) :
    (padFrac d m).map charVal =
      List.replicate (d - (natDigits m).length) 0 ++ natDigits m := by
  unfold padFrac
  rw [List.map_append, map_charVal_digitChar _ (natDigits_lt_ten m)]
  congr 1
  rw [List.map_replicate]
  rfl

theorem digitsVal_padFrac (d m : ℕ) : digitsVal ((padFrac d m).map charVal) = m := by
  rw [map_charVal_padFrac, digitsVal_replicate_zero, digitsVal_natDigits]

theorem padFrac_length (d m : ℕ) (hd : 1 ≤ d) (hm : m < 10 ^ d) :
    (padFrac d m).length = d := by
  unfold padFrac
  rw [List.length_append, List.length_replicate, List.length_map]
  have := natDigits_length_le m d hd hm
  omega

theorem padFrac_not_space (d m : ℕ) : ∀ c ∈ padFrac d m, isSpaceChar c = false := by
  intro c hc
  rcases List.mem_append.mp hc with hc | hc
  · rw [List.eq_of_mem_replicate hc]
    decide
  · exact decimal_chars_not_space m c hc

/-- Combine an integer part and a `d`-digit fractional part over a common
power-of-ten denominator. -/
theorem rat_int_frac (A B : ℕ) (d : ℕ) :
    (A : ℚ) + (B : ℚ) / 10 ^ d = ((A * 10 ^ d + B : ℕ) : ℚ) / 10 ^ d := by
  have h10 : ((10 : ℚ) ^ d) ≠ 0 := by positivity
  push_cast
  rw [add_div, mul_div_cancel_right₀ _ h10]

/-- Parsing inverts printing on an unsigned fixed-point numeral. -/
theorem parseUnsigned_print (a d m : ℕ) (hd : 1 ≤ d) (hm : m < 10 ^ d) :
    parseUnsignedChars ((natDigits a).map digitChar ++ '.' :: padFrac d m) =
      some ((a : ℚ) + (m : ℚ) / 10 ^ d) := by
  have hdl := natDigits_map_isDigit a
  have hdot : isDigitChar '.' = false := by decide
  have hipf : ((natDigits a).map digitChar).isEmpty = false := by
    cases h : (natDigits a).map digitChar with
    | nil => exact absurd (List.map_eq_nil_iff.mp h) (natDigits_ne_nil a)
    | cons x xs => rfl
  unfold parseUnsignedChars
  rw [takeWhile_append_stop _ _ _ _ hdl hdot, dropWhile_append_stop _ _ _ _ hdl hdot]
  rw [if_neg (by simp), if_pos (by simp)]
  simp only [List.tail_cons]
  rw [takeWhile_of_all _ _ (padFrac_isDigit d m),
    dropWhile_of_all _ _ (padFrac_isDigit d m)]
  rw [if_pos (by rw [hipf]; rfl)]
  rw [map_charVal_digitChar _ (natDigits_lt_ten a), digitsVal_natDigits,
    digitsVal_padFrac, padFrac_length d m hd hm]

/-- Reduction of the sign dispatch of `parseFloatChars` on a whitespace-free
list. -/
theorem parseFloatChars_cons (c : Char) (rest : List Char)
    (h : stripChars (c :: rest) = c :: rest) :
    parseFloatChars (c :: rest) =
      if c = '-' then (parseUnsignedChars rest).map (fun q => -q)
      else if c = '+' then parseUnsignedChars rest
      else parseUnsignedChars (c :: rest) := by
  unfold parseFloatChars
  rw [h]

/-- Parsing inverts printing on a signed fixed-point numeral: the parsed
value of `decimalStr c d` is exactly `c / 10 ^ d`. -/
theorem parseFloat_decimalStr (c : ℤ) (d : ℕ) (hd : 1 ≤ d) :
    parseFloat (decimalStr c d) = some ((c : ℚ) / 10 ^ d) := by
  have hbody : ∀ x ∈ (natDigits (c.natAbs / 10 ^ d)).map digitChar
      ++ '.' :: padFrac d (c.natAbs % 10 ^ d), isSpaceChar x = false := by
    intro x hx
    rcases List.mem_append.mp hx with hx | hx
    · exact decimal_chars_not_space _ x hx
    · rcases List.mem_cons.mp hx with hx | hx
      · subst hx
        decide
      · exact padFrac_not_space _ _ x hx
  have hmod : c.natAbs % 10 ^ d < 10 ^ d := Nat.mod_lt _ (by positivity)
  have hdm : c.natAbs / 10 ^ d * 10 ^ d + c.natAbs % 10 ^ d = c.natAbs := by
    rw [Nat.mul_comm]
    exact Nat.div_add_mod c.natAbs (10 ^ d)
  have hval : ((c.natAbs / 10 ^ d : ℕ) : ℚ) + ((c.natAbs % 10 ^ d : ℕ) : ℚ) / 10 ^ d
      = (c.natAbs : ℚ) / 10 ^ d := by
    rw [rat_int_frac, hdm]
  show parseFloatChars (decimalStr c d).data = _
  by_cases hc : c < 0
  · rw [show (decimalStr c d).data
      = '-' :: ((natDigits (c.natAbs / 10 ^ d)).map digitChar
          ++ '.' :: padFrac d (c.natAbs % 10 ^ d)) by
        show (if c < 0 then ['-'] else []) ++ _ = _
        rw [if_pos hc]
        rfl]
    rw [parseFloatChars_cons _ _ (stripChars_eq_self _ (by
      intro x hx
      rcases List.mem_cons.mp hx with hx | hx
      · subst hx
        decide
      · exact hbody x hx))]
    rw [if_pos rfl, parseUnsigned_print _ d _ hd hmod, hval]
    show some (-((c.natAbs : ℚ) / 10 ^ d)) = some ((c : ℚ) / 10 ^ d)
    have hca : ((c.natAbs : ℕ) : ℚ) = -(c : ℚ) := by
      rw [Int.cast_natAbs, abs_of_neg hc]
      push_cast
      ring
    rw [hca]
    congr 1
    ring
  · obtain ⟨k, ks, hk⟩ : ∃ k ks, natDigits (c.natAbs / 10 ^ d) = k :: ks := by
      cases h : natDigits (c.natAbs / 10 ^ d) with
      | nil => exact absurd h (natDigits_ne_nil _)
      | cons k ks => exact ⟨k, ks, rfl⟩
    have hk10 : k < 10 := natDigits_lt_ten _ k (by rw [hk]; exact List.mem_cons_self k ks)
    have hshape : (decimalStr c d).data
        = digitChar k :: (ks.map digitChar ++ '.' :: padFrac d (c.natAbs % 10 ^ d)) := by
      show (if c < 0 then ['-'] else []) ++ _ = _
      rw [if_neg hc, hk]
      rfl
    rw [hshape]
    rw [parseFloatChars_cons _ _ (stripChars_eq_self _ (by
      intro x hx
      rw [show digitChar k :: (ks.map digitChar ++ '.' :: padFrac d (c.natAbs % 10 ^ d))
        = (natDigits (c.natAbs / 10 ^ d)).map digitChar
          ++ '.' :: padFrac d (c.natAbs % 10 ^ d) by rw [hk]; rfl] at hx
      exact hbody x hx))]
    rw [if_neg (digitChar_ne_dash k hk10), if_neg (digitChar_ne_plus k hk10)]
    rw [show digitChar k :: (ks.map digitChar ++ '.' :: padFrac d (c.natAbs % 10 ^ d))
      = (natDigits (c.natAbs / 10 ^ d)).map digitChar
        ++ '.' :: padFrac d (c.natAbs % 10 ^ d) by rw [hk]; rfl]
    rw [parseUnsigned_print _ d _ hd hmod, hval]
    have hca : ((c.natAbs : ℕ) : ℚ) = (c : ℚ) := by
      rw [Int.cast_natAbs, abs_of_nonneg (not_lt.mp hc)]
    rw [hca]

/-- Rounding half to even of an integer is that integer. -/
theorem rhe_intCast (n : ℤ) : rhe (n : ℚ) = n := by
  unfold rhe
  rw [Int.floor_intCast]
  norm_num

/-- Truncation toward zero of an integer is that integer. -/
theorem pyInt_intCast (n : ℤ) : pyInt (n : ℚ) = n := by
  unfold pyInt
  by_cases h : (n : ℚ) < 0
  · rw [if_pos h, ← Int.cast_neg, Int.floor_intCast, neg_neg]
  · rw [if_neg h, Int.floor_intCast]

/-- The voltage formatter on a multiple of ten millivolts prints the exact
two-decimal numeral. -/
theorem fmtVolts_of_dvd (k : ℤ) : fmtVolts (10 * k) = decimalStr k 2 := by
  unfold fmtVolts
  congr 1
  rw [show ((10 * k : ℤ) : ℚ) / 10 = (k : ℚ) by push_cast; ring]
  exact rhe_intCast k

/-- The current formatter prints the exact three-decimal numeral. -/
theorem fmtAmps_eq (ma : ℤ) : fmtAmps ma = decimalStr ma 3 := by
  unfold fmtAmps
  congr 1
  exact rhe_intCast ma

/-! ## Data model: device profiles, status record, errors

Each `Tenma72XXXX` class contributes only the class constants `MATCH_STR`,
`NCHANNELS`, `NCONFS`, `MAX_MA`, `MAX_MV` and `SERIAL_EOL`; a `Profile`
bundles them. -/

structure Profile where
  matchStrs : List String
  nchannels : ℕ
  nconfs : ℕ
  maxMA : ℕ
  maxMV : ℕ
  serialEol : String
deriving DecidableEq

/-- Defaults of class `Tenma72Base` (documented as those of a 72-2540). -/
def tenma72Base : Profile := ⟨[""], 1, 5, 5000, 30000, ""⟩

def tenma722540 : Profile := ⟨["72-2540"], 1, 5, 5000, 30000, ""⟩

def tenma722535 : Profile := ⟨["72-2535"], 1, 5, 3000, 30000, ""⟩

def tenma722545 : Profile := ⟨["72-2545"], 1, 5, 2000, 60000, ""⟩

def tenma722550 : Profile := ⟨["72-2550", "KORADKA6003P"], 1, 5, 3000, 60000, ""⟩

def tenma722930 : Profile := ⟨["72-2930"], 1, 5, 10000, 30000, ""⟩

def tenma722705 : Profile := ⟨["72-2705"], 1, 5, 3100, 31000, ""⟩

def tenma722940 : Profile := ⟨["72-2940"], 1, 5, 5000, 60000, ""⟩

def tenma7213320 : Profile := ⟨["72-13320"], 3, 0, 3000, 30000, "\n"⟩

def tenma7213330 : Profile := ⟨["72-13330"], 3, 0, 5000, 30000, "\n"⟩

/-- Exceptions the driver raises: `TenmaError`, `NotImplementedError`
(unsupported operation) and `ValueError` (failed `float`/enum conversion). -/
inductive PyError where
  | tenmaError (msg : String)
  | notImplementedError (msg : String)
  | valueError (msg : String)
deriving DecidableEq

instance instDecEqExcept {ε α : Type} [DecidableEq ε] [DecidableEq α] :
    DecidableEq (Except ε α) := fun a b =>
  match a, b with
  | .ok x, .ok y =>
    if h : x = y then isTrue (by rw [h])
    else isFalse (by intro he; injection he; exact h (by assumption))
  | .ok _, .error _ => isFalse (fun he => Except.noConfusion he)
  | .error _, .ok _ => isFalse (fun he => Except.noConfusion he)
  | .error x, .error y =>
    if h : x = y then isTrue (by rw [h])
    else isFalse (by intro he; injection he; exact h (by assumption))

/-- Result of one driver operation: the list of strings written to the
serial port (each already suffixed with the profile's line terminator, as
`_send_command` does) and the returned value or raised exception. -/
abbrev TResult (α : Type) := List String × Except PyError α

/-- Run `k` after a validation step: a raised error propagates before any
transport write, as in Python where the check raises out of the method. -/
def withCheck {α : Type} (c : Except PyError Unit) (k : TResult α) : TResult α :=
  match c with
  | .error e => ([], .error e)
  | .ok _ => k

/-- Sequence two statements: an exception in the first skips the second;
the written commands accumulate in program order. -/
def andThen {α β : Type} (r : TResult α) (k : α → TResult β) : TResult β :=
  match r.2 with
  | .error e => (r.1, .error e)
  | .ok a => (r.1 ++ (k a).1, (k a).2)

/-- `ValueError` from `float(s)` on an unparseable string. -/
def floatError (s : String) : PyError :=
  .valueError ("could not convert string to float: " ++ s)

/-- Send the commands, then parse the device's textual reply as a float
(`ValueError` on failure, as `float` raises). -/
def parseReply (cmds : List String) (s : String) : TResult ℚ :=
  (cmds,
    match parseFloat s with
    | none => .error (floatError s)
    | some q => .ok q)

/-- `IntEnum` `TrackingModeType` with members 0, 1, 2. -/
inductive TrackingModeType where
  | independent
  | trackingSeries
  | trackingParallel
deriving DecidableEq

/-- `TrackingModeType(n)`: `none` models the `ValueError` the enum
constructor raises on a value outside 0..2. -/
def trackingModeOfInt (n : ℕ) : Option TrackingModeType :=
  match n with
  | 0 => some .independent
  | 1 => some .trackingSeries
  | 2 => some .trackingParallel
  | _ => none

/-- Dataclass `Mode`; the channel modes are the literal strings
`"C.V"` / `"C.C"` as in the Python `Literal` type. -/
structure Mode where
  ch1_mode : String
  ch2_mode : String
  tracking_mode : TrackingModeType
  beep_enabled : Bool := false
  lock_enabled : Bool := false
  out1_enabled : Bool := false
  out2_enabled : Bool := false
deriving DecidableEq

/-! ## Driver operations of the base family (`Tenma72Base`) -/

/-- `_send_command` appends the profile's `SERIAL_EOL` to the command. -/
def sendStr (p : Profile) (cmd : String) : String := cmd ++ p.serialEol

/-- Message of the channel-range `TenmaError`. -/
def channelError (p : Profile) (channel : ℤ) : PyError :=
  .tenmaError ("Channel CH" ++ intToStr channel ++ " not in range ("
    ++ natToStr p.nchannels ++ " channels supported)")

/-- `check_channel`: rejects a channel strictly above `NCHANNELS` (there is
no lower-bound test in the source). -/
def checkChannel (p : Profile) (channel : ℤ) : Except PyError Unit :=
  if (p.nchannels : ℤ) < channel then .error (channelError p channel)
  else .ok ()

/-- `check_voltage`: rejects millivolts strictly above `MAX_MV`. -/
def checkVoltage (p : Profile) (channel mv : ℤ) : Except PyError Unit :=
  if (p.maxMV : ℤ) < mv then
    .error (.tenmaError ("Trying to set CH" ++ intToStr channel ++ " voltage to "
      ++ intToStr mv ++ "mV, the maximum is " ++ natToStr p.maxMV ++ "mV"))
  else .ok ()

/-- `check_current`: rejects milliamps strictly above `MAX_MA`. -/
def checkCurrent (p : Profile) (channel ma : ℤ) : Except PyError Unit :=
  if (p.maxMA : ℤ) < ma then
    .error (.tenmaError ("Trying to set CH" ++ intToStr channel ++ " current to "
      ++ intToStr ma ++ "mA, the maximum is " ++ natToStr p.maxMA ++ "mA"))
  else .ok ()

/-- Wire string of `VSET{channel}?`. -/
def vsetQuery (p : Profile) (channel : ℤ) : String :=
  sendStr p ("VSET" ++ intToStr channel ++ "?")

/-- Wire string of `ISET{channel}?`. -/
def isetQuery (p : Profile) (channel : ℤ) : String :=
  sendStr p ("ISET" ++ intToStr channel ++ "?")

/-- Wire string of `VSET{channel}:{mv/1000:.2f}`. -/
def vsetCmd (p : Profile) (channel mv : ℤ) : String :=
  sendStr p ("VSET" ++ intToStr channel ++ ":" ++ fmtVolts mv)

/-- Wire string of `ISET{channel}:{ma/1000:.3f}`. -/
def isetCmd (p : Profile) (channel ma : ℤ) : String :=
  sendStr p ("ISET" ++ intToStr channel ++ ":" ++ fmtAmps ma)

/-- Wire string of `OUT1`. -/
def onCmd (p : Profile) : String := sendStr p "OUT1"

/-- Wire string of `OUT0`. -/
def offCmd (p : Profile) : String := sendStr p "OUT0"

/-- Wire string `recall_conf` actually sends: the verbatim literal
`RCL{confg}` of the source (the string is a plain literal there, not an
f-string, so the slot number never reaches the wire). -/
def rclCmd (p : Profile) : String := sendStr p "RCL{confg}"

/-- Wire string of `SAV{conf}`. -/
def savCmd (p : Profile) (conf : ℤ) : String := sendStr p ("SAV" ++ intToStr conf)

/-- `get_status` of the base class, given the raw status byte the device
answers with: decodes bit 0 / bit 1 as the channel modes, bits 2-3 through
the `TrackingModeType` enum constructor (which raises `ValueError` on the
value 3), bits 4-6 as beep / lock / output flags. -/
def getStatusBase (p : Profile) (statusByte : ℕ) : TResult Mode :=
  ([sendStr p "STATUS?"],
    match trackingModeOfInt ((statusByte &&& 0x0C) >>> 2) with
    | none => .error (.valueError (natToStr ((statusByte &&& 0x0C) >>> 2)
        ++ " is not a valid TrackingModeType"))
    | some t => .ok
        { ch1_mode := if statusByte &&& 0x01 ≠ 0 then "C.V" else "C.C"
          ch2_mode := if statusByte &&& 0x02 ≠ 0 then "C.V" else "C.C"
          tracking_mode := t
          beep_enabled := statusByte &&& 0x10 ≠ 0
          lock_enabled := statusByte &&& 0x20 ≠ 0
          out1_enabled := statusByte &&& 0x40 ≠ 0 })

/-- `read_voltage`: validate channel, send `VSET{ch}?`, parse the reply. -/
def readVoltage (p : Profile) (channel : ℤ) (reply : String) : TResult ℚ :=
  withCheck (checkChannel p channel) (parseReply [vsetQuery p channel] reply)

/-- `read_current`: validate channel, send `ISET{ch}?`, parse only the
first five characters of the reply (`float(self.__read_output()[:5])`,
working around the 72-2550 firmware bug). -/
def readCurrentBase (p : Profile) (channel : ℤ) (reply : String) : TResult ℚ :=
  withCheck (checkChannel p channel)
    (parseReply [isetQuery p channel] (strTake reply 5))

/-- `running_voltage`: validate channel, send `VOUT{ch}?`, parse reply. -/
def runningVoltage (p : Profile) (channel : ℤ) (reply : String) : TResult ℚ :=
  withCheck (checkChannel p channel)
    (parseReply [sendStr p ("VOUT" ++ intToStr channel ++ "?")] reply)

/-- `running_current` of the base class. -/
def runningCurrentBase (p : Profile) (channel : ℤ) (reply : String) : TResult ℚ :=
  withCheck (checkChannel p channel)
    (parseReply [sendStr p ("IOUT" ++ intToStr channel ++ "?")] reply)

/-- Verification step shared by the set operations: convert the read-back
value to the integer milli-unit, compare with the request, raise
`Set ...m{U}, but read ...m{U}` on mismatch, return the read-back value on
match. -/
def verifySet (unit : String) (target : ℤ) (q : ℚ) : Except PyError ℚ :=
  if pyInt (q * 1000) ≠ target then
    .error (.tenmaError ("Set " ++ intToStr target ++ unit ++ ", but read "
      ++ intToStr (pyInt (q * 1000)) ++ unit))
  else .ok q

/-- `set_voltage`: validate channel and millivolts, send
`VSET{ch}:{mv/1000:.2f}`, read the setting back via `read_voltage` (whose
reply is the `reply` argument), convert to millivolts by `int(v * 1000)`
and fail on mismatch with the requested value. -/
def setVoltageBase (p : Profile) (channel mv : ℤ) (reply : String) : TResult ℚ :=
  withCheck (checkChannel p channel) <|
  withCheck (checkVoltage p channel mv) <|
  match readVoltage p channel reply with
  | (tr, .error e) => (vsetCmd p channel mv :: tr, .error e)
  | (tr, .ok q) => (vsetCmd p channel mv :: tr, verifySet "mV" mv q)

/-- `set_current`: validate channel and milliamps, send
`ISET{ch}:{ma/1000:.3f}`, read back via `read_current` and fail on
mismatch. -/
def setCurrentBase (p : Profile) (channel ma : ℤ) (reply : String) : TResult ℚ :=
  withCheck (checkChannel p channel) <|
  withCheck (checkCurrent p channel ma) <|
  match readCurrentBase p channel reply with
  | (tr, .error e) => (isetCmd p channel ma :: tr, .error e)
  | (tr, .ok q) => (isetCmd p channel ma :: tr, verifySet "mA" ma q)

/-- `on` of the base class: sends `OUT1`. -/
def onBase (p : Profile) : TResult Unit := ([onCmd p], .ok ())

/-- `off` of the base class: sends `OUT0`. -/
def offBase (p : Profile) : TResult Unit := ([offCmd p], .ok ())

/-- `save_conf`: validate the slot (upper bound only), send `SAV{conf}`. -/
def saveConf (p : Profile) (conf : ℤ) : TResult Unit :=
  if (p.nconfs : ℤ) < conf then
    ([], .error (.tenmaError ("Trying to set M" ++ intToStr conf ++ " with only "
      ++ natToStr p.nconfs ++ " slots")))
  else ([savCmd p conf], .ok ())

/-- `recall_conf`: validate the slot (upper bound only), then send the
command; the source sends the verbatim literal `RCL{confg}`. -/
def recallConf (p : Profile) (conf : ℤ) : TResult Unit :=
  if (p.nconfs : ℤ) < conf then
    ([], .error (.tenmaError ("Trying to recall M" ++ intToStr conf ++ " with only "
      ++ natToStr p.nconfs ++ " confs")))
  else ([rclCmd p], .ok ())

/-- `save_conf_flow`: output off, read voltage, read current, recall the
slot, re-apply voltage and current, save the slot; an exception in a step
propagates and skips all later steps. The four replies feed the four reads
in program order. -/
def saveConfFlowBase (p : Profile) (conf channel : ℤ) (r1 r2 r3 r4 : String) :
    TResult Unit :=
  andThen (offBase p) fun _ =>
  andThen (readVoltage p channel r1) fun volt =>
  andThen (readCurrentBase p channel r2) fun curr =>
  andThen (recallConf p conf) fun _ =>
  andThen (setVoltageBase p channel (pyInt (volt * 1000)) r3) fun _ =>
  andThen (setCurrentBase p channel (pyInt (curr * 1000)) r4) fun _ =>
  saveConf p conf

/-- `NotImplementedError` raised by every capability the base class lacks. -/
def notSupported : PyError := .notImplementedError "Not supported by all models"

/-- `set_lock` of the base class: unsupported, nothing is sent. -/
def setLockBase (enable : Bool) : TResult Unit := ([], .error notSupported)

/-- `set_tracking` of the base class: unsupported, nothing is sent. -/
def setTrackingBase (tm : TrackingModeType) : TResult Unit := ([], .error notSupported)

/-- `start_auto_voltage_step` of the base class: unsupported. -/
def startAutoVoltageStepBase (channel startMv stopMv stepMv stepTime : ℤ) :
    TResult Unit := ([], .error notSupported)

/-- `stop_auto_voltage_step` of the base class: unsupported. -/
def stopAutoVoltageStepBase (channel : ℤ) : TResult Unit := ([], .error notSupported)

/-- `start_auto_current_step` of the base class: unsupported. -/
def startAutoCurrentStepBase (channel startMa stopMa stepMa stepTime : ℤ) :
    TResult Unit := ([], .error notSupported)

/-- `stop_auto_current_step` of the base class: unsupported. -/
def stopAutoCurrentStepBase (channel : ℤ) : TResult Unit := ([], .error notSupported)

/-- `set_manual_voltage_step` of the base class: unsupported. -/
def setManualVoltageStepBase (channel stepMv : ℤ) : TResult Unit :=
  ([], .error notSupported)

/-- `step_voltage_up` of the base class: unsupported. -/
def stepVoltageUpBase (channel : ℤ) : TResult Unit := ([], .error notSupported)

/-- `step_voltage_down` of the base class: unsupported. -/
def stepVoltageDownBase (channel : ℤ) : TResult Unit := ([], .error notSupported)

/-- `set_manual_current_step` of the base class: unsupported. -/
def setManualCurrentStepBase (channel stepMa : ℤ) : TResult Unit :=
  ([], .error notSupported)

/-- `step_current_up` of the base class: unsupported. -/
def stepCurrentUpBase (channel : ℤ) : TResult Unit := ([], .error notSupported)

/-- `step_current_down` of the base class: unsupported. -/
def stepCurrentDownBase (channel : ℤ) : TResult Unit := ([], .error notSupported)

/-- `read_current` of `Tenma7213320`: channel 3 has no current readout;
other channels defer to the base implementation (with its 5-character
truncation). -/
def readCurrent13320 (p : Profile) (channel : ℤ) (reply : String) : TResult ℚ :=
  if channel = 3 then
    ([], .error (.tenmaError "Channel CH3 does not support reading current"))
  else readCurrentBase p channel reply

/-! ## Model detection (`instantiate_tenma_class_from_device_response`) -/

/-- Profiles in the order `find_subclasses_recursively(Tenma72Base)` yields
them: direct subclasses in class-definition order, each preceded by its own
subclasses — hence `Tenma7213330` right before its parent `Tenma7213320`
at the end. -/
def subclassScan : List Profile :=
  [tenma722540, tenma722535, tenma722545, tenma722550, tenma722930,
   tenma722705, tenma722940, tenma7213330, tenma7213320]

/-- The factory: query `*IDN?` (empty terminator); when the answer `r1` is
empty, retry once with a newline terminator, reading `r2`. Scan the
subclasses in order and return the first whose match string occurs in the
version string; fall back on `Tenma722545` with a printed warning (the
returned flag). The first component lists the identity commands written. -/
def instantiateFromResponse (r1 r2 : String) : List String × Profile × Bool :=
  let ver := if r1 = "" then r2 else r1
  let tr := if r1 = "" then ["*IDN?", "*IDN?\n"] else ["*IDN?"]
  match subclassScan.find? (fun p => p.matchStrs.any (fun m => strContains m ver)) with
  | some p => (tr, p, false)
  | none => (tr, tenma722545, true)

/-! ## Evaluation lemmas for the driver operations -/

theorem checkChannel_ok (p : Profile) (ch : ℤ) (h : ch ≤ (p.nchannels : ℤ)) :
    checkChannel p ch = .ok () := by
  unfold checkChannel
  rw [if_neg (not_lt.mpr h)]

theorem checkChannel_err (p : Profile) (ch : ℤ) (h : (p.nchannels : ℤ) < ch) :
    checkChannel p ch = .error (channelError p ch) := by
  unfold checkChannel
  rw [if_pos h]

theorem checkVoltage_ok (p : Profile) (ch mv : ℤ) (h : mv ≤ (p.maxMV : ℤ)) :
    checkVoltage p ch mv = .ok () := by
  unfold checkVoltage
  rw [if_neg (not_lt.mpr h)]

theorem checkCurrent_ok (p : Profile) (ch ma : ℤ) (h : ma ≤ (p.maxMA : ℤ)) :
    checkCurrent p ch ma = .ok () := by
  unfold checkCurrent
  rw [if_neg (not_lt.mpr h)]

theorem withCheck_ok {α : Type} (k : TResult α) : withCheck (.ok ()) k = k := rfl

theorem withCheck_err {α : Type} (e : PyError) (k : TResult α) :
    withCheck (.error e) k = ([], .error e) := rfl

theorem andThen_ok {α β : Type} (tr : List String) (a : α) (k : α → TResult β) :
    andThen (tr, .ok a) k = (tr ++ (k a).1, (k a).2) := rfl

theorem andThen_err {α β : Type} (tr : List String) (e : PyError) (k : α → TResult β) :
    andThen (tr, .error e) k = (tr, .error e) := rfl

theorem parseReply_some (cmds : List String) (s : String) (q : ℚ)
    (hq : parseFloat s = some q) : parseReply cmds s = (cmds, .ok q) := by
  unfold parseReply
  rw [hq]

theorem parseReply_none (cmds : List String) (s : String)
    (hq : parseFloat s = none) : parseReply cmds s = (cmds, .error (floatError s)) := by
  unfold parseReply
  rw [hq]

theorem readVoltage_ok (p : Profile) (ch : ℤ) (reply : String) (q : ℚ)
    (h : ch ≤ (p.nchannels : ℤ)) (hq : parseFloat reply = some q) :
    readVoltage p ch reply = ([vsetQuery p ch], .ok q) := by
  unfold readVoltage
  rw [checkChannel_ok p ch h, withCheck_ok, parseReply_some _ _ _ hq]

theorem readCurrentBase_ok (p : Profile) (ch : ℤ) (reply : String) (q : ℚ)
    (h : ch ≤ (p.nchannels : ℤ)) (hq : parseFloat (strTake reply 5) = some q) :
    readCurrentBase p ch reply = ([isetQuery p ch], .ok q) := by
  unfold readCurrentBase
  rw [checkChannel_ok p ch h, withCheck_ok, parseReply_some _ _ _ hq]

theorem verifySet_match (unit : String) (target : ℤ) (q : ℚ)
    (h : pyInt (q * 1000) = target) : verifySet unit target q = .ok q := by
  unfold verifySet
  rw [if_neg (by simp [h])]

theorem verifySet_mismatch (unit : String) (target : ℤ) (q : ℚ)
    (h : pyInt (q * 1000) ≠ target) :
    verifySet unit target q
      = .error (.tenmaError ("Set " ++ intToStr target ++ unit ++ ", but read "
          ++ intToStr (pyInt (q * 1000)) ++ unit)) := by
  unfold verifySet
  rw [if_pos h]

theorem setVoltageBase_eval (p : Profile) (ch mv : ℤ) (reply : String) (q : ℚ)
    (hch : ch ≤ (p.nchannels : ℤ)) (hmv : mv ≤ (p.maxMV : ℤ))
    (hq : parseFloat reply = some q) :
    setVoltageBase p ch mv reply
      = ([vsetCmd p ch mv, vsetQuery p ch], verifySet "mV" mv q) := by
  unfold setVoltageBase
  rw [checkChannel_ok p ch hch, withCheck_ok, checkVoltage_ok p ch mv hmv, withCheck_ok,
    readVoltage_ok p ch reply q hch hq]

theorem setCurrentBase_eval (p : Profile) (ch ma : ℤ) (reply : String) (q : ℚ)
    (hch : ch ≤ (p.nchannels : ℤ)) (hma : ma ≤ (p.maxMA : ℤ))
    (hq : parseFloat (strTake reply 5) = some q) :
    setCurrentBase p ch ma reply
      = ([isetCmd p ch ma, isetQuery p ch], verifySet "mA" ma q) := by
  unfold setCurrentBase
  rw [checkChannel_ok p ch hch, withCheck_ok, checkCurrent_ok p ch ma hma, withCheck_ok,
    readCurrentBase_ok p ch reply q hch hq]

theorem pyInt_thousandth (k : ℤ) : pyInt ((k : ℚ) / 100 * 1000) = 10 * k := by
  rw [show ((k : ℚ) / 100 * 1000) = ((10 * k : ℤ) : ℚ) by push_cast; ring]
  exact pyInt_intCast (10 * k)

theorem readVoltage_err_channel (p : Profile) (ch : ℤ) (r : String)
    (h : (p.nchannels : ℤ) < ch) :
    readVoltage p ch r = ([], .error (channelError p ch)) := by
  unfold readVoltage
  rw [checkChannel_err p ch h, withCheck_err]

theorem readVoltage_err_parse (p : Profile) (ch : ℤ) (r : String)
    (h : ch ≤ (p.nchannels : ℤ)) (hp : parseFloat r = none) :
    readVoltage p ch r = ([vsetQuery p ch], .error (floatError r)) := by
  unfold readVoltage
  rw [checkChannel_ok p ch h, withCheck_ok, parseReply_none _ _ hp]

theorem readCurrentBase_err_channel (p : Profile) (ch : ℤ) (r : String)
    (h : (p.nchannels : ℤ) < ch) :
    readCurrentBase p ch r = ([], .error (channelError p ch)) := by
  unfold readCurrentBase
  rw [checkChannel_err p ch h, withCheck_err]

theorem readCurrentBase_err_parse (p : Profile) (ch : ℤ) (r : String)
    (h : ch ≤ (p.nchannels : ℤ)) (hp : parseFloat (strTake r 5) = none) :
    readCurrentBase p ch r = ([isetQuery p ch], .error (floatError (strTake r 5))) := by
  unfold readCurrentBase
  rw [checkChannel_ok p ch h, withCheck_ok, parseReply_none _ _ hp]

theorem recallConf_ok (p : Profile) (conf : ℤ) (h : conf ≤ (p.nconfs : ℤ)) :
    recallConf p conf = ([rclCmd p], .ok ()) := by
  unfold recallConf
  rw [if_neg (not_lt.mpr h)]

theorem recallConf_err (p : Profile) (conf : ℤ) (h : (p.nconfs : ℤ) < conf) :
    recallConf p conf
      = ([], .error (.tenmaError ("Trying to recall M" ++ intToStr conf ++ " with only "
          ++ natToStr p.nconfs ++ " confs"))) := by
  unfold recallConf
  rw [if_pos h]

theorem saveConf_ok (p : Profile) (conf : ℤ) (h : conf ≤ (p.nconfs : ℤ)) :
    saveConf p conf = ([savCmd p conf], .ok ()) := by
  unfold saveConf
  rw [if_neg (not_lt.mpr h)]

theorem saveConf_err (p : Profile) (conf : ℤ) (h : (p.nconfs : ℤ) < conf) :
    saveConf p conf
      = ([], .error (.tenmaError ("Trying to set M" ++ intToStr conf ++ " with only "
          ++ natToStr p.nconfs ++ " slots"))) := by
  unfold saveConf
  rw [if_pos h]

theorem setVoltageBase_err_voltage (p : Profile) (ch mv : ℤ) (r : String)
    (hch : ch ≤ (p.nchannels : ℤ)) (hmv : (p.maxMV : ℤ) < mv) :
    setVoltageBase p ch mv r
      = ([], .error (.tenmaError ("Trying to set CH" ++ intToStr ch ++ " voltage to "
          ++ intToStr mv ++ "mV, the maximum is " ++ natToStr p.maxMV ++ "mV"))) := by
  unfold setVoltageBase checkVoltage
  rw [checkChannel_ok p ch hch, withCheck_ok, if_pos hmv, withCheck_err]

theorem setVoltageBase_err_parse (p : Profile) (ch mv : ℤ) (r : String)
    (hch : ch ≤ (p.nchannels : ℤ)) (hmv : mv ≤ (p.maxMV : ℤ))
    (hp : parseFloat r = none) :
    setVoltageBase p ch mv r
      = ([vsetCmd p ch mv, vsetQuery p ch], .error (floatError r)) := by
  unfold setVoltageBase
  rw [checkChannel_ok p ch hch, withCheck_ok, checkVoltage_ok p ch mv hmv, withCheck_ok,
    readVoltage_err_parse p ch r hch hp]

theorem setCurrentBase_err_current (p : Profile) (ch ma : ℤ) (r : String)
    (hch : ch ≤ (p.nchannels : ℤ)) (hma : (p.maxMA : ℤ) < ma) :
    setCurrentBase p ch ma r
      = ([], .error (.tenmaError ("Trying to set CH" ++ intToStr ch ++ " current to "
          ++ intToStr ma ++ "mA, the maximum is " ++ natToStr p.maxMA ++ "mA"))) := by
  unfold setCurrentBase checkCurrent
  rw [checkChannel_ok p ch hch, withCheck_ok, if_pos hma, withCheck_err]

theorem setCurrentBase_err_parse (p : Profile) (ch ma : ℤ) (r : String)
    (hch : ch ≤ (p.nchannels : ℤ)) (hma : ma ≤ (p.maxMA : ℤ))
    (hp : parseFloat (strTake r 5) = none) :
    setCurrentBase p ch ma r
      = ([isetCmd p ch ma, isetQuery p ch], .error (floatError (strTake r 5))) := by
  unfold setCurrentBase
  rw [checkChannel_ok p ch hch, withCheck_ok, checkCurrent_ok p ch ma hma, withCheck_ok,
    readCurrentBase_err_parse p ch r hch hp]

/-! ## C2: base status decoding -/

/-- C2 (evaluation of the base decoder at the claimed bytes): `0x00` and
`0x01` decode as the claim says, but `0xFF` does not yield a mode with
tracking value 3 — bits 2-3 of `0xFF` give 3, which the `TrackingModeType`
enum constructor rejects with `ValueError`, so `get_status` raises after
sending `STATUS?` (the repository's own unit test expects
`TrackingModeType(3)` here, and the docstring documents binary `11` as
tracking parallel, so the enum is missing the value the decoder needs). -/
theorem get_status_decoding :
    getStatusBase tenma722540 0x00
      = (["STATUS?"],
         .ok { ch1_mode := "C.C", ch2_mode := "C.C", tracking_mode := .independent })
    ∧ getStatusBase tenma722540 0x01
      = (["STATUS?"],
         .ok { ch1_mode := "C.V", ch2_mode := "C.C", tracking_mode := .independent })
    ∧ getStatusBase tenma722540 0xFF
      = (["STATUS?"], .error (.valueError "3 is not a valid TrackingModeType")) := by
  refine ⟨?_, ?_, ?_⟩ <;> decide

/-! ## C3: recall_conf command formatting -/

/-- C3 (the recall command on the wire): for the valid slot 1 the range
check passes and a command is sent, but the bytes are the verbatim template
`RCL{confg}` — the source line lacks the f-string prefix — not `RCL1`. -/
theorem recall_conf_sends_literal :
    recallConf tenma722540 1 = (["RCL{confg}"], .ok ())
    ∧ "RCL{confg}" ≠ "RCL" ++ intToStr (1 : ℤ) := by
  refine ⟨?_, ?_⟩ <;> decide

/-! ## C5: channel validation checks only the upper bound -/

/-- C5 (amended: only the upper bound is enforced — `check_channel` has no
lower-bound test): for every channel strictly above `channel_count`, each
channel-taking operation raises the channel `TenmaError` and writes
nothing; channels below 1 are not rejected. -/
theorem channel_validation_upper (p : Profile) (ch : ℤ)
    (h : (p.nchannels : ℤ) < ch) (mv ma : ℤ) (reply : String) :
    readCurrentBase p ch reply = ([], .error (channelError p ch))
    ∧ readVoltage p ch reply = ([], .error (channelError p ch))
    ∧ runningCurrentBase p ch reply = ([], .error (channelError p ch))
    ∧ runningVoltage p ch reply = ([], .error (channelError p ch))
    ∧ setVoltageBase p ch mv reply = ([], .error (channelError p ch))
    ∧ setCurrentBase p ch ma reply = ([], .error (channelError p ch)) := by
  have hc := checkChannel_err p ch h
  refine ⟨?_, ?_, ?_, ?_, ?_, ?_⟩
  · unfold readCurrentBase
    rw [hc, withCheck_err]
  · unfold readVoltage
    rw [hc, withCheck_err]
  · unfold runningCurrentBase
    rw [hc, withCheck_err]
  · unfold runningVoltage
    rw [hc, withCheck_err]
  · unfold setVoltageBase
    rw [hc, withCheck_err]
  · unfold setCurrentBase
    rw [hc, withCheck_err]

/-- Witness: channel 2 on the single-channel 72-2540 is rejected with the
exact message and an empty trace. -/
theorem channel_validation_upper_witness :
    readCurrentBase tenma722540 2 "1.000"
      = ([], .error (channelError tenma722540 2)) :=
  (channel_validation_upper tenma722540 2 (by decide) 0 0 "1.000").1

/-- C5 counterexample: channel 0 (below the claimed lower bound 1) passes
validation on the single-channel profile — `ISET0?` is written to the
transport and the parsed reply is returned, with no `ValidationError`. -/
theorem channel_zero_not_rejected :
    readCurrentBase tenma722540 0 "1.234"
      = (["ISET0?"], .ok (((1234 : ℤ) : ℚ) / 10 ^ 3)) := by
  have hq : parseFloat (strTake "1.234" 5) = some (((1234 : ℤ) : ℚ) / 10 ^ 3) := by
    rw [show strTake "1.234" 5 = decimalStr 1234 3 by decide]
    exact parseFloat_decimalStr 1234 3 (by norm_num)
  have h := readCurrentBase_ok tenma722540 0 "1.234" _ (by decide) hq
  rw [show [isetQuery tenma722540 0] = ["ISET0?"] by decide] at h
  exact h

/-! ## C6: memory-slot validation checks only the upper bound -/

/-- C6 (amended: only the upper bound is enforced — the slot checks have no
lower-bound test): for every slot strictly above `config_slot_count`,
`save_conf` and `recall_conf` raise a `TenmaError` and write nothing; slots
below 1 are not rejected. -/
theorem slot_validation_upper (p : Profile) (s : ℤ) (h : (p.nconfs : ℤ) < s) :
    saveConf p s
      = ([], .error (.tenmaError ("Trying to set M" ++ intToStr s ++ " with only "
          ++ natToStr p.nconfs ++ " slots")))
    ∧ recallConf p s
      = ([], .error (.tenmaError ("Trying to recall M" ++ intToStr s ++ " with only "
          ++ natToStr p.nconfs ++ " confs"))) :=
  ⟨saveConf_err p s h, recallConf_err p s h⟩

/-- Witness: slot 6 on the five-slot 72-2540 is rejected with an empty
trace. -/
theorem slot_validation_upper_witness :
    saveConf tenma722540 6
      = ([], .error (.tenmaError ("Trying to set M" ++ intToStr (6 : ℤ) ++ " with only "
          ++ natToStr tenma722540.nconfs ++ " slots"))) :=
  (slot_validation_upper tenma722540 6 (by decide)).1

/-- C6 counterexample: slot 0 (below the claimed lower bound 1) passes both
slot validations — `SAV0` is written by `save_conf` and the recall command
is written by `recall_conf`, with no `ValidationError`. -/
theorem slot_zero_not_rejected :
    saveConf tenma722540 0 = (["SAV0"], .ok ())
    ∧ recallConf tenma722540 0 = (["RCL{confg}"], .ok ()) := by
  refine ⟨?_, ?_⟩ <;> decide

/-! ## C8: unsupported capabilities of the base family -/

/-- C8: every stepping, tracking and front-panel-lock operation of the base
single-channel family raises `NotImplementedError` (`"Not supported by all
models"`) and writes nothing to the transport. -/
theorem unsupported_ops_no_write (enable : Bool) (tm : TrackingModeType)
    (ch a b c t : ℤ) :
    setLockBase enable = ([], .error notSupported)
    ∧ setTrackingBase tm = ([], .error notSupported)
    ∧ startAutoVoltageStepBase ch a b c t = ([], .error notSupported)
    ∧ stopAutoVoltageStepBase ch = ([], .error notSupported)
    ∧ startAutoCurrentStepBase ch a b c t = ([], .error notSupported)
    ∧ stopAutoCurrentStepBase ch = ([], .error notSupported)
    ∧ setManualVoltageStepBase ch a = ([], .error notSupported)
    ∧ stepVoltageUpBase ch = ([], .error notSupported)
    ∧ stepVoltageDownBase ch = ([], .error notSupported)
    ∧ setManualCurrentStepBase ch a = ([], .error notSupported)
    ∧ stepCurrentUpBase ch = ([], .error notSupported)
    ∧ stepCurrentDownBase ch = ([], .error notSupported) :=
  ⟨rfl, rfl, rfl, rfl, rfl, rfl, rfl, rfl, rfl, rfl, rfl, rfl⟩

/-! ## Machinery for the save_conf_flow claims -/

/-- The full command sequence of a successful `save_conf_flow`, where `v`
and `c` are the millivolt/milliamp values re-applied in steps 5 and 6. -/
def saveFlowSeq (p : Profile) (conf ch v c : ℤ) : List String :=
  [offCmd p, vsetQuery p ch, isetQuery p ch, rclCmd p,
   vsetCmd p ch v, vsetQuery p ch, isetCmd p ch c, isetQuery p ch, savCmd p conf]

/-- The recall-abort hypothesis of C4: channel valid, both reads parse, and
the slot is out of range, so the recall step is the first that fails. -/
def recallAborts (p : Profile) (conf ch : ℤ) (r1 r2 : String) : Prop :=
  ch ≤ (p.nchannels : ℤ) ∧ (parseFloat r1).isSome
    ∧ (parseFloat (strTake r2 5)).isSome ∧ (p.nconfs : ℤ) < conf

/-- The conclusion shape shared by C4's branches. -/
def flowShape (p : Profile) (conf ch : ℤ) (r1 r2 r3 r4 : String) : Prop :=
  ∃ k v c, 1 ≤ k ∧ k ≤ 9
    ∧ (saveConfFlowBase p conf ch r1 r2 r3 r4).1 = (saveFlowSeq p conf ch v c).take k
    ∧ ((saveConfFlowBase p conf ch r1 r2 r3 r4).2 = .ok () ↔ k = 9)
    ∧ (recallAborts p conf ch r1 r2 → k = 3)
    ∧ ((saveConfFlowBase p conf ch r1 r2 r3 r4).2 = .ok () →
        ∃ qv qc, parseFloat r1 = some qv ∧ parseFloat (strTake r2 5) = some qc
          ∧ v = pyInt (qv * 1000) ∧ c = pyInt (qc * 1000))

theorem pack_err (p : Profile) (conf ch : ℤ) (r1 r2 r3 r4 : String)
    (k : ℕ) (v c : ℤ) (hk1 : 1 ≤ k) (hk : k ≤ 8)
    (htr : (saveConfFlowBase p conf ch r1 r2 r3 r4).1 = (saveFlowSeq p conf ch v c).take k)
    (hres : (saveConfFlowBase p conf ch r1 r2 r3 r4).2 ≠ .ok ())
    (hrecall : recallAborts p conf ch r1 r2 → k = 3) :
    flowShape p conf ch r1 r2 r3 r4 :=
  ⟨k, v, c, hk1, by omega, htr,
    ⟨fun he => absurd he hres, fun h9 => absurd h9 (by omega)⟩, hrecall,
    fun he => absurd he hres⟩

/-- Order and abort behaviour of `save_conf_flow`: the commands written are
always an initial segment of the nine-step sequence `saveFlowSeq`; the
segment is the whole sequence exactly when the flow succeeds; when the
recall step is the first to fail (valid channel, both reads parse, slot out
of range) exactly the first three commands are written; and on success the
re-applied values are the integer millivolts/milliamps of the two reads. -/
theorem saveConfFlow_shape (p : Profile) (conf ch : ℤ) (r1 r2 r3 r4 : String) :
    flowShape p conf ch r1 r2 r3 r4 := by
  by_cases hch : ch ≤ (p.nchannels : ℤ)
  · cases hp1 : parseFloat r1 with
    | none =>
      have h1 := readVoltage_err_parse p ch r1 hch hp1
      refine pack_err p conf ch r1 r2 r3 r4 2 0 0 (by omega) (by omega) ?_ ?_ ?_
      · simp [saveConfFlowBase, offBase, andThen_ok, andThen_err, h1, saveFlowSeq]
      · simp [saveConfFlowBase, offBase, andThen_ok, andThen_err, h1]
      · intro ⟨_, hs, _, _⟩
        simp [hp1] at hs
    | some qv =>
      have h1 := readVoltage_ok p ch r1 qv hch hp1
      cases hp2 : parseFloat (strTake r2 5) with
      | none =>
        have h2 := readCurrentBase_err_parse p ch r2 hch hp2
        refine pack_err p conf ch r1 r2 r3 r4 3 0 0 (by omega) (by omega) ?_ ?_ ?_
        · simp [saveConfFlowBase, offBase, andThen_ok, andThen_err, h1, h2, saveFlowSeq]
        · simp [saveConfFlowBase, offBase, andThen_ok, andThen_err, h1, h2]
        · intro ⟨_, _, hs, _⟩
          simp [hp2] at hs
      | some qc =>
        have h2 := readCurrentBase_ok p ch r2 qc hch hp2
        by_cases hconf : (p.nconfs : ℤ) < conf
        · have h3 := recallConf_err p conf hconf
          refine pack_err p conf ch r1 r2 r3 r4 3 0 0 (by omega) (by omega) ?_ ?_ ?_
          · simp [saveConfFlowBase, offBase, andThen_ok, andThen_err, h1, h2, h3, saveFlowSeq]
          · simp [saveConfFlowBase, offBase, andThen_ok, andThen_err, h1, h2, h3]
          · intro _
            rfl
        · have hconf' : conf ≤ (p.nconfs : ℤ) := not_lt.mp hconf
          have h3 := recallConf_ok p conf hconf'
          have hnotrecall : recallAborts p conf ch r1 r2 → (3 : ℕ) = 3 := fun _ => rfl
          by_cases hmv : (p.maxMV : ℤ) < pyInt (qv * 1000)
          · have h4 := setVoltageBase_err_voltage p ch (pyInt (qv * 1000)) r3 hch hmv
            refine pack_err p conf ch r1 r2 r3 r4 4 0 0 (by omega) (by omega) ?_ ?_ ?_
            · simp [saveConfFlowBase, offBase, andThen_ok, andThen_err, h1, h2, h3, h4,
                saveFlowSeq]
            · simp [saveConfFlowBase, offBase, andThen_ok, andThen_err, h1, h2, h3, h4]
            · intro ⟨_, _, _, hc4⟩
              exact absurd hc4 hconf
          · have hmv' : pyInt (qv * 1000) ≤ (p.maxMV : ℤ) := not_lt.mp hmv
            cases hp3 : parseFloat r3 with
            | none =>
              have h4 := setVoltageBase_err_parse p ch (pyInt (qv * 1000)) r3 hch hmv' hp3
              refine pack_err p conf ch r1 r2 r3 r4 6 (pyInt (qv * 1000)) 0
                (by omega) (by omega) ?_ ?_ ?_
              · simp [saveConfFlowBase, offBase, andThen_ok, andThen_err, h1, h2, h3, h4,
                  saveFlowSeq]
              · simp [saveConfFlowBase, offBase, andThen_ok, andThen_err, h1, h2, h3, h4]
              · intro ⟨_, _, _, hc4⟩
                exact absurd hc4 hconf
            | some q3 =>
              have h4 := setVoltageBase_eval p ch (pyInt (qv * 1000)) r3 q3 hch hmv' hp3
              by_cases hver3 : pyInt (q3 * 1000) = pyInt (qv * 1000)
              · have h4' := verifySet_match "mV" (pyInt (qv * 1000)) q3 hver3
                by_cases hma : (p.maxMA : ℤ) < pyInt (qc * 1000)
                · have h5 := setCurrentBase_err_current p ch (pyInt (qc * 1000)) r4 hch hma
                  refine pack_err p conf ch r1 r2 r3 r4 6 (pyInt (qv * 1000)) 0
                    (by omega) (by omega) ?_ ?_ ?_
                  · simp [saveConfFlowBase, offBase, andThen_ok, andThen_err, h1, h2, h3,
                      h4, h4', h5, saveFlowSeq]
                  · simp [saveConfFlowBase, offBase, andThen_ok, andThen_err, h1, h2, h3,
                      h4, h4', h5]
                  · intro ⟨_, _, _, hc4⟩
                    exact absurd hc4 hconf
                · have hma' : pyInt (qc * 1000) ≤ (p.maxMA : ℤ) := not_lt.mp hma
                  cases hp4 : parseFloat (strTake r4 5) with
                  | none =>
                    have h5 := setCurrentBase_err_parse p ch (pyInt (qc * 1000)) r4 hch hma' hp4
                    refine pack_err p conf ch r1 r2 r3 r4 8 (pyInt (qv * 1000))
                      (pyInt (qc * 1000)) (by omega) (by omega) ?_ ?_ ?_
                    · simp [saveConfFlowBase, offBase, andThen_ok, andThen_err, h1, h2, h3,
                        h4, h4', h5, saveFlowSeq]
                    · simp [saveConfFlowBase, offBase, andThen_ok, andThen_err, h1, h2, h3,
                        h4, h4', h5]
                    · intro ⟨_, _, _, hc4⟩
                      exact absurd hc4 hconf
                  | some q4 =>
                    have h5 := setCurrentBase_eval p ch (pyInt (qc * 1000)) r4 q4 hch hma' hp4
                    by_cases hver4 : pyInt (q4 * 1000) = pyInt (qc * 1000)
                    · have h5' := verifySet_match "mA" (pyInt (qc * 1000)) q4 hver4
                      have h6 := saveConf_ok p conf hconf'
                      refine ⟨9, pyInt (qv * 1000), pyInt (qc * 1000), by omega, by omega,
                        ?_, ?_, ?_, ?_⟩
                      · simp [saveConfFlowBase, offBase, andThen_ok, andThen_err, h1, h2,
                          h3, h4, h4', h5, h5', h6, saveFlowSeq]
                      · simp [saveConfFlowBase, offBase, andThen_ok, andThen_err, h1, h2,
                          h3, h4, h4', h5, h5', h6]
                      · intro ⟨_, _, _, hc4⟩
                        exact absurd hc4 hconf
                      · intro _
                        exact ⟨qv, qc, hp1, hp2, rfl, rfl⟩
                    · have h5' := verifySet_mismatch "mA" (pyInt (qc * 1000)) q4 hver4
                      refine pack_err p conf ch r1 r2 r3 r4 8 (pyInt (qv * 1000))
                        (pyInt (qc * 1000)) (by omega) (by omega) ?_ ?_ ?_
                      · simp [saveConfFlowBase, offBase, andThen_ok, andThen_err, h1, h2,
                          h3, h4, h4', h5, h5', saveFlowSeq]
                      · simp [saveConfFlowBase, offBase, andThen_ok, andThen_err, h1, h2,
                          h3, h4, h4', h5, h5']
                      · intro ⟨_, _, _, hc4⟩
                        exact absurd hc4 hconf
              · have h4' := verifySet_mismatch "mV" (pyInt (qv * 1000)) q3 hver3
                refine pack_err p conf ch r1 r2 r3 r4 6 (pyInt (qv * 1000)) 0
                  (by omega) (by omega) ?_ ?_ ?_
                · simp [saveConfFlowBase, offBase, andThen_ok, andThen_err, h1, h2, h3,
                    h4, h4', saveFlowSeq]
                · simp [saveConfFlowBase, offBase, andThen_ok, andThen_err, h1, h2, h3,
                    h4, h4']
                · intro ⟨_, _, _, hc4⟩
                  exact absurd hc4 hconf
  · have h1 := readVoltage_err_channel p ch r1 (not_le.mp hch)
    refine pack_err p conf ch r1 r2 r3 r4 1 0 0 (by omega) (by omega) ?_ ?_ ?_
    · simp [saveConfFlowBase, offBase, andThen_ok, andThen_err, h1, saveFlowSeq]
    · simp [saveConfFlowBase, offBase, andThen_ok, andThen_err, h1]
    · intro ⟨hc, _, _, _⟩
      exact absurd hc hch

/-! ## C4: command order and abort behaviour of save_conf_flow -/

/-- C4: `save_conf_flow` writes its commands in the fixed order output-off,
read-voltage, read-current, recall, set-voltage (with its read-back query),
set-current (with its read-back query), save — formally, the written trace
is always an initial segment of `saveFlowSeq`, the segment is the whole
nine-command sequence exactly when the flow succeeds (so a failing step
aborts all later commands and the error propagates), when the recall step
is the first to fail exactly the three commands before it have been written
and no set or save command is issued, and on success the re-applied values
are the integer millivolts/milliamps read in steps 2 and 3. -/
theorem save_conf_flow_order (p : Profile) (conf ch : ℤ) (r1 r2 r3 r4 : String) :
    ∃ k v c, 1 ≤ k ∧ k ≤ 9
      ∧ (saveConfFlowBase p conf ch r1 r2 r3 r4).1 = (saveFlowSeq p conf ch v c).take k
      ∧ ((saveConfFlowBase p conf ch r1 r2 r3 r4).2 = .ok () ↔ k = 9)
      ∧ (recallAborts p conf ch r1 r2 → k = 3)
      ∧ ((saveConfFlowBase p conf ch r1 r2 r3 r4).2 = .ok () →
          ∃ qv qc, parseFloat r1 = some qv ∧ parseFloat (strTake r2 5) = some qc
            ∧ v = pyInt (qv * 1000) ∧ c = pyInt (qc * 1000)) :=
  saveConfFlow_shape p conf ch r1 r2 r3 r4

/-- Witness: the order theorem instantiated on the 72-2540 profile, slot 1,
channel 1, with replies `1.00` V and `0.500` A echoed consistently. -/
theorem save_conf_flow_order_witness :
    ∃ k v c, 1 ≤ k ∧ k ≤ 9
      ∧ (saveConfFlowBase tenma722540 1 1 "1.00" "0.500" "1.00" "0.500").1
        = (saveFlowSeq tenma722540 1 1 v c).take k
      ∧ ((saveConfFlowBase tenma722540 1 1 "1.00" "0.500" "1.00" "0.500").2 = .ok ()
          ↔ k = 9)
      ∧ (recallAborts tenma722540 1 1 "1.00" "0.500" → k = 3)
      ∧ ((saveConfFlowBase tenma722540 1 1 "1.00" "0.500" "1.00" "0.500").2 = .ok () →
          ∃ qv qc, parseFloat "1.00" = some qv ∧ parseFloat (strTake "0.500" 5) = some qc
            ∧ v = pyInt (qv * 1000) ∧ c = pyInt (qc * 1000)) :=
  save_conf_flow_order tenma722540 1 1 "1.00" "0.500" "1.00" "0.500"

/-! ## C10: save_conf_flow leaves the output off -/

theorem ne_of_head (s t : String) (c1 c2 : Char) (h1 : s.data.head? = some c1)
    (h2 : t.data.head? = some c2) (hne : c1 ≠ c2) : s ≠ t := by
  intro he
  rw [he] at h1
  rw [h1] at h2
  exact hne (Option.some.inj h2)

theorem offCmd_ne_onCmd (p : Profile) : offCmd p ≠ onCmd p := by
  intro he
  have h := congrArg String.data he
  simp only [offCmd, onCmd, sendStr, String.data_append] at h
  have h2 : "OUT0".data = "OUT1".data := List.append_cancel_right h
  exact absurd h2 (by decide)

theorem onCmd_not_mem_saveFlowSeq (p : Profile) (conf ch v c : ℤ) :
    onCmd p ∉ saveFlowSeq p conf ch v c := by
  intro hmem
  simp only [saveFlowSeq, List.mem_cons, List.not_mem_nil, or_false] at hmem
  rcases hmem with h | h | h | h | h | h | h | h | h
  · exact offCmd_ne_onCmd p h.symm
  · exact ne_of_head (onCmd p) (vsetQuery p ch) 'O' 'V' rfl rfl (by decide) h
  · exact ne_of_head (onCmd p) (isetQuery p ch) 'O' 'I' rfl rfl (by decide) h
  · exact ne_of_head (onCmd p) (rclCmd p) 'O' 'R' rfl rfl (by decide) h
  · exact ne_of_head (onCmd p) (vsetCmd p ch v) 'O' 'V' rfl rfl (by decide) h
  · exact ne_of_head (onCmd p) (vsetQuery p ch) 'O' 'V' rfl rfl (by decide) h
  · exact ne_of_head (onCmd p) (isetCmd p ch c) 'O' 'I' rfl rfl (by decide) h
  · exact ne_of_head (onCmd p) (isetQuery p ch) 'O' 'I' rfl rfl (by decide) h
  · exact ne_of_head (onCmd p) (savCmd p conf) 'O' 'S' rfl rfl (by decide) h

/-- C10: on every slot, channel and set of replies, the command trace of
`save_conf_flow` starts with the output-off command `OUT0` and never
contains the output-on command `OUT1` — the flow never re-enables the
output, also on success. -/
theorem save_conf_flow_output_off (p : Profile) (conf ch : ℤ) (r1 r2 r3 r4 : String) :
    (saveConfFlowBase p conf ch r1 r2 r3 r4).1.head? = some (offCmd p)
    ∧ onCmd p ∉ (saveConfFlowBase p conf ch r1 r2 r3 r4).1 := by
  obtain ⟨k, v, c, hk1, hk9, htr, _, _, _⟩ := saveConfFlow_shape p conf ch r1 r2 r3 r4
  constructor
  · rw [htr]
    obtain ⟨k', rfl⟩ : ∃ k', k = k' + 1 := ⟨k - 1, by omega⟩
    rfl
  · rw [htr]
    intro hmem
    exact onCmd_not_mem_saveFlowSeq p conf ch v c (List.take_subset _ _ hmem)

/-! ## C9: read_current parses only the first five reply characters -/

/-- C9: on every profile (the base family shares one implementation, and
the three-channel override delegates to it for channels other than 3),
`read_current` parses only the first five characters of the raw reply:
whenever they parse as a float the truncated value is returned, and the
result depends on the reply only through its first five characters. -/
theorem read_current_truncates (p : Profile) (ch : ℤ) (r : String) (q : ℚ)
    (hch : ch ≤ (p.nchannels : ℤ)) (hq : parseFloat (strTake r 5) = some q) :
    readCurrentBase p ch r = ([isetQuery p ch], .ok q)
    ∧ (∀ r' : String, strTake r' 5 = strTake r 5 →
        readCurrentBase p ch r' = readCurrentBase p ch r)
    ∧ (ch ≠ 3 → readCurrent13320 p ch r = readCurrentBase p ch r) := by
  refine ⟨readCurrentBase_ok p ch r q hch hq, ?_, ?_⟩
  · intro r' hr
    unfold readCurrentBase
    rw [hr]
  · intro h3
    unfold readCurrent13320
    rw [if_neg h3]

/-- Witness: the reply `"1.234999"` is read as `1.234` — the three trailing
characters are ignored. -/
theorem read_current_truncates_witness :
    readCurrentBase tenma722540 1 "1.234999"
      = (["ISET1?"], .ok (((1234 : ℤ) : ℚ) / 10 ^ 3)) := by
  have hq : parseFloat (strTake "1.234999" 5) = some (((1234 : ℤ) : ℚ) / 10 ^ 3) := by
    rw [show strTake "1.234999" 5 = decimalStr 1234 3 by decide]
    exact parseFloat_decimalStr 1234 3 (by norm_num)
  have h := (read_current_truncates tenma722540 1 "1.234999" _ (by decide) hq).1
  rw [show [isetQuery tenma722540 1] = ["ISET1?"] by decide] at h
  exact h

/-! ## C7: model detection and profile selection -/

/-- C7 (amended: the subclass scan returns the first match in registration
order, so a reply containing `72-2550` selects the 72-2550 profile only
when it contains none of the patterns scanned earlier — `72-2540`,
`72-2535`, `72-2545`): the identity command is sent once, with exactly one
newline-terminated retry when the first reply is empty; a reply containing
`72-2550` and no earlier pattern yields the profile with
`max_milliamps = 3000` and `max_millivolts = 60000` and no warning; a reply
matching no registered pattern yields the default 72-2545 profile with the
non-fatal detection warning. -/
theorem profile_selection (r1 r2 : String) :
    (instantiateFromResponse r1 r2).1
      = (if r1 = "" then ["*IDN?", "*IDN?\n"] else ["*IDN?"])
    ∧ ((strContains "72-2550" (if r1 = "" then r2 else r1) = true
        ∧ strContains "72-2540" (if r1 = "" then r2 else r1) = false
        ∧ strContains "72-2535" (if r1 = "" then r2 else r1) = false
        ∧ strContains "72-2545" (if r1 = "" then r2 else r1) = false) →
        (instantiateFromResponse r1 r2).2 = (tenma722550, false)
        ∧ tenma722550.maxMA = 3000 ∧ tenma722550.maxMV = 60000)
    ∧ ((∀ p ∈ subclassScan, ∀ m ∈ p.matchStrs,
          strContains m (if r1 = "" then r2 else r1) = false) →
        (instantiateFromResponse r1 r2).2 = (tenma722545, true)) := by
  refine ⟨?_, ?_, ?_⟩
  · simp only [instantiateFromResponse]
    cases subclassScan.find? (fun p => p.matchStrs.any
      (fun m => strContains m (if r1 = "" then r2 else r1))) <;> rfl
  · intro ⟨h50, h40, h35, h45⟩
    have hp40 : (tenma722540.matchStrs.any
        (fun m => strContains m (if r1 = "" then r2 else r1))) = false := by
      simp only [tenma722540, List.any_cons, List.any_nil, h40, Bool.or_false]
    have hp35 : (tenma722535.matchStrs.any
        (fun m => strContains m (if r1 = "" then r2 else r1))) = false := by
      simp only [tenma722535, List.any_cons, List.any_nil, h35, Bool.or_false]
    have hp45 : (tenma722545.matchStrs.any
        (fun m => strContains m (if r1 = "" then r2 else r1))) = false := by
      simp only [tenma722545, List.any_cons, List.any_nil, h45, Bool.or_false]
    have hp50 : (tenma722550.matchStrs.any
        (fun m => strContains m (if r1 = "" then r2 else r1))) = true := by
      simp only [tenma722550, List.any_cons, List.any_nil, h50, Bool.true_or]
    have hfind : subclassScan.find? (fun p => p.matchStrs.any
        (fun m => strContains m (if r1 = "" then r2 else r1))) = some tenma722550 := by
      simp only [subclassScan, List.find?, hp40, hp35, hp45, hp50]
    simp only [instantiateFromResponse, hfind]
    exact ⟨by trivial, by trivial, by trivial⟩
  · intro hall
    have hfind : subclassScan.find? (fun p => p.matchStrs.any
        (fun m => strContains m (if r1 = "" then r2 else r1))) = none := by
      rw [List.find?_eq_none]
      intro p hp hany
      rw [List.any_eq_true] at hany
      obtain ⟨m, hm, hc⟩ := hany
      rw [hall p hp m hm] at hc
      exact Bool.false_ne_true hc
    simp only [instantiateFromResponse, hfind]

/-- Witness: a clean 72-2550 identity reply selects the 72-2550 profile
without warning. -/
theorem profile_selection_witness :
    (instantiateFromResponse "TENMA 72-2550 V2.0" "").2 = (tenma722550, false) :=
  ((profile_selection "TENMA 72-2550 V2.0" "").2.1
    ⟨by decide, by decide, by decide, by decide⟩).1

/-- C7 counterexample: an identity reply containing both `72-2545` and
`72-2550` is claimed to select the 3000 mA / 60000 mV profile, but the scan
hits `Tenma722545` first, whose profile has `max_milliamps = 2000`. -/
theorem profile_selection_shadowed :
    (instantiateFromResponse "72-2545 72-2550" "").2 = (tenma722545, false)
    ∧ tenma722545.maxMA = 2000 := by
  refine ⟨?_, ?_⟩ <;> decide

/-! ## C1: round-trip law of `set_voltage` -/

/-- C1 (amended: the echoed write round-trips exactly when the request is a
multiple of 10 mV, i.e. representable at the wire's 2-decimal volt
precision): for a valid channel and `mv ≤ max_millivolts` with `10 ∣ mv`,
an exact echo of the written value makes `set_voltage` return `mv/1000`
after exactly one write-then-read cycle; any parsed echo whose millivolt
conversion differs from the request raises a `TenmaError` reporting both
values. -/
theorem set_voltage_roundtrip (p : Profile) (ch mv : ℤ)
    (h1 : 1 ≤ ch) (h2 : ch ≤ (p.nchannels : ℤ)) (h3 : mv ≤ (p.maxMV : ℤ))
    (h4 : (10 : ℤ) ∣ mv) :
    setVoltageBase p ch mv (fmtVolts mv)
      = ([vsetCmd p ch mv, vsetQuery p ch], .ok ((mv : ℚ) / 1000))
    ∧ ∀ reply q, parseFloat reply = some q → pyInt (q * 1000) ≠ mv →
        setVoltageBase p ch mv reply
          = ([vsetCmd p ch mv, vsetQuery p ch],
             .error (.tenmaError ("Set " ++ intToStr mv ++ "mV" ++ ", but read "
               ++ intToStr (pyInt (q * 1000)) ++ "mV"))) := by
  constructor
  · obtain ⟨k, rfl⟩ := h4
    have hfmt : fmtVolts (10 * k) = decimalStr k 2 := fmtVolts_of_dvd k
    have hparse : parseFloat (fmtVolts (10 * k)) = some ((k : ℚ) / 10 ^ 2) := by
      rw [hfmt]
      exact parseFloat_decimalStr k 2 (by norm_num)
    rw [setVoltageBase_eval p ch (10 * k) _ _ h2 h3 hparse]
    rw [verifySet_match _ _ _ (by rw [show ((k : ℚ) / 10 ^ 2) = (k : ℚ) / 100 by norm_num,
      pyInt_thousandth])]
    congr 2
    push_cast
    ring
  · intro reply q hq hne
    rw [setVoltageBase_eval p ch mv reply q h2 h3 hq, verifySet_mismatch _ _ _ hne]

/-- Witness: on the 72-2540 profile, channel 1, 250 mV, the exact echo
`"0.25"` makes `set_voltage` return `0.25`. -/
theorem set_voltage_roundtrip_witness :
    (setVoltageBase tenma722540 1 250 (fmtVolts 250)).2 = .ok (((250 : ℤ) : ℚ) / 1000) := by
  have h := (set_voltage_roundtrip tenma722540 1 250 (by decide) (by decide) (by decide)
    (by decide)).1
  rw [h]

/-- C1 counterexample: with `mv = 1234` (within the 72-2540 voltage limit)
the wire carries the rounded value `1.23`, so the exact echo of the written
value reads back as 1230 mV and `set_voltage` raises the mismatch error
instead of returning `mv/1000`. -/
theorem set_voltage_exact_echo_fails :
    setVoltageBase tenma722540 1 1234 (fmtVolts 1234)
      = ([vsetCmd tenma722540 1 1234, vsetQuery tenma722540 1],
         .error (.tenmaError "Set 1234mV, but read 1230mV"))
    ∧ (setVoltageBase tenma722540 1 1234 (fmtVolts 1234)).2
        ≠ .ok ((1234 : ℚ) / 1000) := by
  have hrhe : rhe (((1234 : ℤ) : ℚ) / 10) = 123 := by
    unfold rhe
    rw [show ⌊((1234 : ℤ) : ℚ) / 10⌋ = (123 : ℤ) by push_cast; norm_num]
    push_cast
    norm_num
  have hparse : parseFloat (fmtVolts (1234 : ℤ)) = some (((123 : ℤ) : ℚ) / 10 ^ 2) := by
    unfold fmtVolts
    rw [hrhe]
    exact parseFloat_decimalStr 123 2 (by norm_num)
  have hpy : pyInt (((123 : ℤ) : ℚ) / 10 ^ 2 * 1000) = 1230 := by
    rw [show (((123 : ℤ) : ℚ) / 10 ^ 2 * 1000) = (((1230 : ℤ)) : ℚ) by push_cast; ring,
      pyInt_intCast]
  have h := setVoltageBase_eval tenma722540 1 1234 (fmtVolts 1234) _
    (by decide) (by decide) hparse
  rw [verifySet_mismatch _ _ _ (by rw [hpy]; decide)] at h
  rw [hpy] at h
  rw [show ("Set " ++ intToStr (1234 : ℤ) ++ "mV" ++ ", but read "
      ++ intToStr (1230 : ℤ) ++ "mV") = "Set 1234mV, but read 1230mV" by decide] at h
  constructor
  · exact h
  · rw [h]
    exact fun hcontra => Except.noConfusion hcontra

end TenmaSerial

